import Mathlib

/-!
Shallow embedding of the jyotish Flutter plugin's native platform scaffolding:
src/linux/jyotish_plugin.cc (GTK variant) and src/windows/jyotish_plugin.cpp
with src/windows/include/jyotish/jyotish_plugin.h (Windows variant).

Both files register a method channel named "jyotish" with the host registrar
using the standard method codec, and answer every incoming method call with
a NotImplemented result. The embedding models host values (FlValue /
EncodableValue), method calls, results, channels and registrars, and the two
platform entry points, translated from the source.
-/

namespace JyotishSpec

/-- Host codec values (FlValue on Linux, flutter::EncodableValue on Windows):
the opaque argument payload of a method call. The component never inspects
payloads, but the type is kept concrete so calls are real data. -/
inductive FlValue where
  | null : FlValue
  | boolVal (b : Bool) : FlValue
  | intVal (i : Int) : FlValue
  | stringVal (s : String) : FlValue
  | listVal (xs : List FlValue) : FlValue

/-- An incoming method call delivered by the host: a method name plus an
argument payload (FlMethodCall on Linux, flutter::MethodCall on Windows). -/
structure FlMethodCall where
  method : String
  args : FlValue

/-- The outcome returned for a method call, as offered by the host result
API: Success(value), Error(code, message, details), or NotImplemented. -/
inductive MethodResult where
  | success (value : FlValue) : MethodResult
  | error (code : String) (message : String) (details : FlValue) : MethodResult
  | notImplemented : MethodResult

/-- The method codec attached to a channel. Both platform files use the
host's standard method codec (fl_standard_method_codec_new on Linux,
flutter::StandardMethodCodec::GetInstance on Windows). -/
inductive MethodCodec where
  | standardMethodCodec : MethodCodec
deriving DecidableEq, Repr

/-- The host's binary messenger a channel is bound to; opaque, identified. -/
structure BinaryMessenger where
  id : Nat
deriving DecidableEq, Repr

/-- A GLib error object, as written through a GError** out-parameter. -/
structure GError where
  message : String
deriving DecidableEq, Repr

end JyotishSpec

namespace LinuxGtk

open JyotishSpec

/-- The GObject base instance required by the GTK object system; its contents
are host-managed and never touched by this component. -/
structure GObject where
  type_data : Unit
deriving DecidableEq, Repr

/-- struct _JyotishPlugin from src/linux/jyotish_plugin.cc: it holds only the
GObject parent instance and declares no plugin-owned data members. -/
structure JyotishPlugin where
  parent_instance : GObject
deriving DecidableEq, Repr

/-- Embedding of fl_method_call_respond_not_implemented: submits exactly one
NotImplemented result to the host result channel for this call. deliveryOk
models whether the host succeeds in delivering it; a GError is written
through the out-parameter only when the caller supplies one and delivery
fails. Returns the submitted results, the gboolean success flag, and the
error written through the out-parameter. -/
def fl_method_call_respond_not_implemented (method_call : FlMethodCall)
    (errorOut : Option Unit) (deliveryOk : Bool) :
    List MethodResult × Bool × Option GError :=
  ([MethodResult.notImplemented], deliveryOk,
    if errorOut.isSome && !deliveryOk then
      some { message := "failed to deliver response" }
    else none)

/-- Embedding of jyotish_plugin_handle_method_call from
src/linux/jyotish_plugin.cc: its whole body is one call to
fl_method_call_respond_not_implemented with a nullptr (none) GError
out-parameter, whose return value is discarded. It returns the (unchanged)
plugin instance and the list of results submitted for this call. -/
def jyotish_plugin_handle_method_call (self : JyotishPlugin)
    (method_call : FlMethodCall) (deliveryOk : Bool) :
    JyotishPlugin × List MethodResult :=
  let submitted :=
    (fl_method_call_respond_not_implemented method_call none deliveryOk).1
  (self, submitted)

/-- Embedding of method_call_cb from src/linux/jyotish_plugin.cc: casts the
user_data back to the plugin instance and forwards the call to
jyotish_plugin_handle_method_call. -/
def method_call_cb (user_data : JyotishPlugin) (method_call : FlMethodCall)
    (deliveryOk : Bool) : List MethodResult :=
  (jyotish_plugin_handle_method_call user_data method_call deliveryOk).2

/-- The host plugin registrar handed to the registration entry point. -/
structure FlPluginRegistrar where
  messenger : BinaryMessenger
deriving DecidableEq, Repr

/-- Embedding of fl_plugin_registrar_get_messenger. -/
def fl_plugin_registrar_get_messenger (registrar : FlPluginRegistrar) :
    BinaryMessenger :=
  registrar.messenger

/-- A method channel as configured by fl_method_channel_new plus
fl_method_channel_set_method_call_handler: the messenger it is bound to,
its name, its codec, and the installed call handler (none while no handler
is installed). -/
structure FlMethodChannel where
  messenger : BinaryMessenger
  name : String
  codec : MethodCodec
  handler : Option (FlMethodCall → Bool → List MethodResult)

/-- The observable outcome of the Linux registration entry point: the
channels it created on the registrar's messenger. -/
structure LinuxRegistration where
  channels : List FlMethodChannel

/-- Embedding of jyotish_plugin_register_with_registrar from
src/linux/jyotish_plugin.cc: constructs the plugin object, creates a
standard-codec method channel named "jyotish" on the registrar's messenger,
and installs method_call_cb (closing over the plugin as user_data) as the
channel's method-call handler. -/
def jyotish_plugin_register_with_registrar (registrar : FlPluginRegistrar) :
    LinuxRegistration :=
  let plugin : JyotishPlugin := { parent_instance := { type_data := () } }
  let codec : MethodCodec := MethodCodec.standardMethodCodec
  let channel : FlMethodChannel :=
    { messenger := fl_plugin_registrar_get_messenger registrar
      name := "jyotish"
      codec := codec
      handler := some (method_call_cb plugin) }
  { channels := [channel] }

/-- An error a host registration path could in principle surface. The Linux
registration path contains no error branch, so its outcome, viewed in a
result type that can carry such an error, is always ok. -/
inductive RegistrationError where
  | hostFailure (message : String) : RegistrationError
deriving DecidableEq, Repr

/-- The registration path's outcome viewed in an error-carrying result type:
the source has no throw, no error return and no failure branch, so the
embedding is unconditionally ok. -/
def jyotish_plugin_register_outcome (registrar : FlPluginRegistrar) :
    Except RegistrationError LinuxRegistration :=
  Except.ok (jyotish_plugin_register_with_registrar registrar)

/-- A finite sequence of calls dispatched to the Linux handler on one
endpoint: each list element is a call envelope paired with whether the host
delivers its response; returns the final plugin state and, per call, the
results submitted for it. -/
def run_calls (self : JyotishPlugin) :
    List (FlMethodCall × Bool) → JyotishPlugin × List (List MethodResult)
  | [] => (self, [])
  | (c, d) :: rest =>
    let step := jyotish_plugin_handle_method_call self c d
    let next := run_calls step.1 rest
    (next.1, step.2 :: next.2)

end LinuxGtk

namespace jyotish

open JyotishSpec

/-- class JyotishPlugin from src/windows/include/jyotish/jyotish_plugin.h:
beyond the flutter::Plugin base (which carries no data) it declares only
member functions and no data fields, so the structure is empty. -/
structure JyotishPlugin where
deriving DecidableEq, Repr

/-- Embedding of JyotishPlugin::HandleMethodCall from
src/windows/jyotish_plugin.cpp: its whole body is result->NotImplemented().
It returns the (unchanged) plugin instance and the list of results sent
through the MethodResult object for this call. -/
def JyotishPlugin.HandleMethodCall (self : JyotishPlugin)
    (method_call : FlMethodCall) : JyotishPlugin × List MethodResult :=
  (self, [MethodResult.notImplemented])

/-- The host plugin registrar handed to the registration entry point. -/
structure PluginRegistrarWindows where
  messenger : BinaryMessenger
deriving DecidableEq, Repr

/-- A flutter::MethodChannel as configured in RegisterWithRegistrar: the
messenger it is bound to, its name, its codec, and the installed call
handler (none while no handler is installed). -/
structure MethodChannel where
  messenger : BinaryMessenger
  name : String
  codec : MethodCodec
  handler : Option (FlMethodCall → List MethodResult)

/-- The observable outcome of the Windows registration entry point: the
channels it created and the plugins whose ownership was transferred to the
registrar via AddPlugin. -/
structure WindowsRegistration where
  channels : List MethodChannel
  ownedPlugins : List JyotishPlugin

/-- Embedding of JyotishPlugin::RegisterWithRegistrar from
src/windows/jyotish_plugin.cpp: creates a standard-codec method channel
named "jyotish" on the registrar's messenger, constructs the plugin,
installs a handler lambda that forwards to the plugin's HandleMethodCall,
and transfers plugin ownership to the registrar with AddPlugin. -/
def JyotishPlugin.RegisterWithRegistrar (registrar : PluginRegistrarWindows) :
    WindowsRegistration :=
  let channel0 : MethodChannel :=
    { messenger := registrar.messenger
      name := "jyotish"
      codec := MethodCodec.standardMethodCodec
      handler := none }
  let plugin : JyotishPlugin := {}
  let channel : MethodChannel :=
    { channel0 with
        handler :=
          some (fun call => (JyotishPlugin.HandleMethodCall plugin call).2) }
  { channels := [channel], ownedPlugins := [plugin] }

/-- The Windows registration path's outcome viewed in an error-carrying
result type: the source has no throw and no failure branch, so the
embedding is unconditionally ok. -/
def JyotishPlugin.RegisterOutcome (registrar : PluginRegistrarWindows) :
    Except LinuxGtk.RegistrationError WindowsRegistration :=
  Except.ok (JyotishPlugin.RegisterWithRegistrar registrar)

/-- A finite sequence of calls dispatched to the Windows handler on one
endpoint: returns the final plugin state and, per call, the results sent
for it. -/
def win_run_calls (self : JyotishPlugin) :
    List FlMethodCall → JyotishPlugin × List (List MethodResult)
  | [] => (self, [])
  | c :: rest =>
    let step := JyotishPlugin.HandleMethodCall self c
    let next := win_run_calls step.1 rest
    (next.1, step.2 :: next.2)

end jyotish

namespace JyotishSpec

open LinuxGtk
open jyotish

/-- Claim C1: for every incoming method call, with any method name and any
argument payload (and any host delivery outcome), both platform handlers
submit exactly the NotImplemented result: never a Success result and never
an Error result. Both embeddings are total Lean functions, so neither
handler crashes on any input. -/
theorem C1_handleCall_always_notImplemented
    (lp : LinuxGtk.JyotishPlugin) (wp : jyotish.JyotishPlugin)
    (call : FlMethodCall) (deliveryOk : Bool) :
    (jyotish_plugin_handle_method_call lp call deliveryOk).2 =
      [MethodResult.notImplemented] ∧
    (JyotishPlugin.HandleMethodCall wp call).2 =
      [MethodResult.notImplemented] ∧
    (∀ v, MethodResult.success v ∉
      (jyotish_plugin_handle_method_call lp call deliveryOk).2) ∧
    (∀ c m d, MethodResult.error c m d ∉
      (jyotish_plugin_handle_method_call lp call deliveryOk).2) ∧
    (∀ v, MethodResult.success v ∉
      (JyotishPlugin.HandleMethodCall wp call).2) ∧
    (∀ c m d, MethodResult.error c m d ∉
      (JyotishPlugin.HandleMethodCall wp call).2) := by
  refine ⟨rfl, rfl, ?_, ?_, ?_, ?_⟩ <;>
    intros <;>
    simp [jyotish_plugin_handle_method_call,
      fl_method_call_respond_not_implemented,
      JyotishPlugin.HandleMethodCall]

/-- Claim C2: every call envelope delivered to a handler produces exactly
one result sent back through the host's result channel: the handler
performs exactly one respond call per envelope, on both platforms, so no
call goes unanswered and none is answered twice. -/
theorem C2_exactly_one_result_per_call
    (lp : LinuxGtk.JyotishPlugin) (wp : jyotish.JyotishPlugin)
    (call : FlMethodCall) (deliveryOk : Bool) :
    (jyotish_plugin_handle_method_call lp call deliveryOk).2.length = 1 ∧
    (JyotishPlugin.HandleMethodCall wp call).2.length = 1 := by
  constructor <;> rfl

/-- Claim C3: handleCall ignores its envelope entirely: for any two
envelopes (any method names, arguments and delivery outcomes) the results
are identical, and the plugin state is returned unchanged in every run, on
both platforms. The embeddings use no state beyond the instance passed in,
mirroring the source files, which have no mutable globals. -/
theorem C3_handleCall_pure
    (lp : LinuxGtk.JyotishPlugin) (wp : jyotish.JyotishPlugin)
    (e1 e2 : FlMethodCall) (d1 d2 : Bool) :
    (jyotish_plugin_handle_method_call lp e1 d1).2 =
      (jyotish_plugin_handle_method_call lp e2 d2).2 ∧
    (jyotish_plugin_handle_method_call lp e1 d1).1 = lp ∧
    (JyotishPlugin.HandleMethodCall wp e1).2 =
      (JyotishPlugin.HandleMethodCall wp e2).2 ∧
    (JyotishPlugin.HandleMethodCall wp e1).1 = wp := by
  exact ⟨rfl, rfl, rfl, rfl⟩

/-- Claim C4: for every finite sequence of calls on the same endpoint, each
call yields the same NotImplemented result independent of order and count,
and the endpoint state after the sequence (hence after each call, since
each step preserves the state) equals the state before it, on both
platforms. -/
theorem C4_sequences_independent
    (lp : LinuxGtk.JyotishPlugin) (wp : jyotish.JyotishPlugin)
    (lcalls : List (FlMethodCall × Bool)) (wcalls : List FlMethodCall) :
    (run_calls lp lcalls).1 = lp ∧
    (run_calls lp lcalls).2 =
      lcalls.map (fun _ => [MethodResult.notImplemented]) ∧
    (win_run_calls wp wcalls).1 = wp ∧
    (win_run_calls wp wcalls).2 =
      wcalls.map (fun _ => [MethodResult.notImplemented]) := by
  refine ⟨?_, ?_, ?_, ?_⟩
  · induction lcalls with
    | nil => rfl
    | cons c rest ih => cases c; simpa [run_calls] using ih
  · induction lcalls with
    | nil => rfl
    | cons c rest ih =>
      cases c
      simp [run_calls, jyotish_plugin_handle_method_call,
        fl_method_call_respond_not_implemented] at ih ⊢
      exact ih
  · induction wcalls with
    | nil => rfl
    | cons c rest ih => simpa [win_run_calls] using ih
  · induction wcalls with
    | nil => rfl
    | cons c rest ih =>
      simp [win_run_calls, JyotishPlugin.HandleMethodCall] at ih ⊢
      exact ih

/-- Claim C5: the Linux dispatch stub and the Windows dispatch stub are
behaviorally equivalent: for every envelope (and any Linux delivery
outcome) the two embeddings submit the same results and both leave their
plugin state unchanged, so the dispatch-stub logic is platform-agnostic. -/
theorem C5_linux_windows_equivalent
    (lp : LinuxGtk.JyotishPlugin) (wp : jyotish.JyotishPlugin)
    (call : FlMethodCall) (deliveryOk : Bool) :
    (jyotish_plugin_handle_method_call lp call deliveryOk).2 =
      (JyotishPlugin.HandleMethodCall wp call).2 ∧
    (jyotish_plugin_handle_method_call lp call deliveryOk).1 = lp ∧
    (JyotishPlugin.HandleMethodCall wp call).1 = wp := by
  exact ⟨rfl, rfl, rfl⟩

/-- Claim C6: on both platforms, registration constructs the stub, creates
exactly one named channel bound to the registrar's messenger, and installs
the stub's dispatch handler on that channel, so that after registration an
incoming call on the channel is routed to handleCall (and hence yields its
results). -/
theorem C6_register_installs_handler
    (lr : FlPluginRegistrar) (wr : PluginRegistrarWindows)
    (call : FlMethodCall) (deliveryOk : Bool) :
    (jyotish_plugin_register_with_registrar lr).channels.length = 1 ∧
    (∀ ch ∈ (jyotish_plugin_register_with_registrar lr).channels,
      ch.messenger = fl_plugin_registrar_get_messenger lr ∧
      ∀ h ∈ ch.handler,
        h call deliveryOk =
          (jyotish_plugin_handle_method_call
            { parent_instance := { type_data := () } } call deliveryOk).2) ∧
    (∀ ch ∈ (jyotish_plugin_register_with_registrar lr).channels,
      ch.handler.isSome) ∧
    (JyotishPlugin.RegisterWithRegistrar wr).channels.length = 1 ∧
    (∀ ch ∈ (JyotishPlugin.RegisterWithRegistrar wr).channels,
      ch.messenger = wr.messenger ∧
      ∀ h ∈ ch.handler,
        h call = (JyotishPlugin.HandleMethodCall {} call).2) ∧
    (∀ ch ∈ (JyotishPlugin.RegisterWithRegistrar wr).channels,
      ch.handler.isSome) ∧
    (JyotishPlugin.RegisterWithRegistrar wr).ownedPlugins.length = 1 := by
  refine ⟨rfl, ?_, ?_, rfl, ?_, ?_, rfl⟩ <;>
    intro ch hch <;>
    simp [jyotish_plugin_register_with_registrar,
      JyotishPlugin.RegisterWithRegistrar] at hch <;>
    subst hch <;>
    simp [method_call_cb, jyotish_plugin_register_with_registrar,
      JyotishPlugin.RegisterWithRegistrar]

/-- Claim C7: registration has no error outcome on either platform: viewed
in a result type that could carry a host error, the registration path is
unconditionally ok for every registrar, with no error branch at this
component's level. -/
theorem C7_register_never_errors
    (lr : FlPluginRegistrar) (wr : PluginRegistrarWindows) :
    (∃ reg, jyotish_plugin_register_outcome lr = Except.ok reg) ∧
    (∀ e, jyotish_plugin_register_outcome lr ≠ Except.error e) ∧
    (∃ reg, JyotishPlugin.RegisterOutcome wr = Except.ok reg) ∧
    (∀ e, JyotishPlugin.RegisterOutcome wr ≠ Except.error e) := by
  refine ⟨⟨_, rfl⟩, ?_, ⟨_, rfl⟩, ?_⟩ <;>
    intro e h <;>
    simp [jyotish_plugin_register_outcome,
      JyotishPlugin.RegisterOutcome] at h

/-- Claim C8: on both platforms the registered channel name is exactly the
string "jyotish" and the channel uses the host's standard method codec. -/
theorem C8_channel_name_and_codec
    (lr : FlPluginRegistrar) (wr : PluginRegistrarWindows) :
    ((jyotish_plugin_register_with_registrar lr).channels.map
      (fun ch => (ch.name, ch.codec))) =
      [("jyotish", MethodCodec.standardMethodCodec)] ∧
    ((JyotishPlugin.RegisterWithRegistrar wr).channels.map
      (fun ch => (ch.name, ch.codec))) =
      [("jyotish", MethodCodec.standardMethodCodec)] := by
  constructor <;> rfl

/-- Claim C9: the plugin object carries no data members beyond what the
host base type requires: the Linux struct is exactly its GObject parent
instance (the projection to it is a bijection), the Windows class has no
fields at all (any two instances are equal), and consequently no handler
run can read per-instance state (results are independent of the instance)
or write it (the instance comes back unchanged). -/
theorem C9_plugin_has_no_own_state
    (call : FlMethodCall) (deliveryOk : Bool) :
    Function.Bijective
      (fun p : LinuxGtk.JyotishPlugin => p.parent_instance) ∧
    (∀ a b : jyotish.JyotishPlugin, a = b) ∧
    (∀ p1 p2 : LinuxGtk.JyotishPlugin,
      (jyotish_plugin_handle_method_call p1 call deliveryOk).2 =
        (jyotish_plugin_handle_method_call p2 call deliveryOk).2 ∧
      (jyotish_plugin_handle_method_call p1 call deliveryOk).1 = p1) ∧
    (∀ q1 q2 : jyotish.JyotishPlugin,
      (JyotishPlugin.HandleMethodCall q1 call).2 =
        (JyotishPlugin.HandleMethodCall q2 call).2 ∧
      (JyotishPlugin.HandleMethodCall q1 call).1 = q1) := by
  refine ⟨⟨?_, ?_⟩, ?_, ?_, ?_⟩
  · intro a b h
    cases a; cases b; simp at h; simp [h]
  · intro g
    exact ⟨{ parent_instance := g }, rfl⟩
  · intro a b
    cases a; cases b; rfl
  · intro p1 p2
    exact ⟨rfl, rfl⟩
  · intro q1 q2
    exact ⟨rfl, rfl⟩

/-- Claim C10: the Linux handler discards any error from delivering the
response: it passes a null (none) GError out-parameter to
fl_method_call_respond_not_implemented, so even when the host fails to
deliver the NotImplemented result no error object is written, and the
handler's resulting state and submitted results are identical to a
successful delivery: the failure is silently ignored. -/
theorem C10_linux_discards_delivery_error
    (self : LinuxGtk.JyotishPlugin) (call : FlMethodCall)
    (deliveryOk : Bool) :
    (fl_method_call_respond_not_implemented call none deliveryOk).2.2 =
      none ∧
    jyotish_plugin_handle_method_call self call deliveryOk =
      jyotish_plugin_handle_method_call self call true ∧
    (jyotish_plugin_handle_method_call self call deliveryOk).1 = self := by
  refine ⟨?_, rfl, rfl⟩
  simp [fl_method_call_respond_not_implemented]

end JyotishSpec
